import Mathlib

/-!
Verification of the GoldenGate PII-scanning core against its design
specification.  Python sources are shallowly embedded: strings become
`List Char`, floats used only for confidences become `ℚ`, dictionaries
become association lists, and the file system / clock become explicit
model parameters.  A `while` loop is embedded as a fuel-indexed step
function: `some r` means the loop exited with result `r` within the given
number of iterations, `none` means it has not yet exited; proving the
result is `none` for every fuel amount proves the loop never terminates.
-/

namespace GoldenGate

/-! ## Character class helpers (Python `re` classes, ASCII fragment) -/

/-- Python regex `\s` (ASCII whitespace as used by the patterns in this repo). -/
def isPySpace (c : Char) : Bool :=
  c = ' ' || c = '\t' || c = '\n' || c = '\r' || c = '\x0b' || c = '\x0c'

/-- Python regex `\w` (word character).  The repository's inputs and patterns
are ASCII apart from a few Latin-1 letters in hard-coded word lists, so the
embedding uses the ASCII fragment of `\w`. -/
def isWordChar (c : Char) : Bool :=
  c.isAlphanum || c = '_'

/-- Separator class `[\s\-.]` used by the phone patterns. -/
def isPhoneSep (c : Char) : Bool :=
  isPySpace c || c = '-' || c = '.'

/-- Digit in `[2-9]`. -/
def isDigit29 (c : Char) : Bool :=
  '2' ≤ c && c ≤ '9'

/-! ## `pii/engine.py`: `_chunk`

```python
def _chunk(text, size=2000, overlap=100):
    if len(text) <= size:
        return [text]
    chunks = []
    start = 0
    while start < len(text):
        end = min(start + size, len(text))
        chunk = text[start:end]
        chunks.append(chunk)
        start = end - overlap
        if start >= len(text):
            break
    return chunks
```

The loop body is embedded one iteration per unit of fuel. -/

def pyChunkLoop (text : List Char) (size overlap : Nat) :
    Nat → Nat → List (List Char) → Option (List (List Char))
  | 0, _, _ => none
  | fuel + 1, start, chunks =>
    if start < text.length then
      if text.length ≤ min (start + size) text.length - overlap then
        some (chunks ++ [(text.drop start).take (min (start + size) text.length - start)])
      else
        pyChunkLoop text size overlap fuel (min (start + size) text.length - overlap)
          (chunks ++ [(text.drop start).take (min (start + size) text.length - start)])
    else some chunks

/-- `_chunk(text, size, overlap)`, allowed to run at most `fuel` loop
iterations.  `none` means the `while` loop has not exited after `fuel`
iterations. -/
def pyChunk (text : List Char) (size overlap fuel : Nat) :
    Option (List (List Char)) :=
  if text.length ≤ size then some [text]
  else pyChunkLoop text size overlap fuel 0 []

/-- The `while` loop of `_chunk` can never exit when `overlap > 0`: the
`break` needs `min(start+size, len) - overlap ≥ len`, which is impossible,
and the new `start` is always `< len` so the loop condition stays true. -/
theorem pyChunkLoop_no_exit (text : List Char) (size overlap : Nat)
    (hov : 0 < overlap) :
    ∀ fuel start chunks, start < text.length →
      pyChunkLoop text size overlap fuel start chunks = none := by
  intro fuel
  induction fuel with
  | zero => intro start chunks _; rfl
  | succ n ih =>
    intro start chunks h
    have he : min (start + size) text.length ≤ text.length := Nat.min_le_right _ _
    have hbreak : ¬ text.length ≤ min (start + size) text.length - overlap := by omega
    have hnext : min (start + size) text.length - overlap < text.length := by omega
    simp only [pyChunkLoop, if_pos h, if_neg hbreak]
    exact ih _ _ hnext

/-- General form of the `_chunk` bug: for every text longer than the chunk
size and every positive overlap, `_chunk` never returns. -/
theorem pyChunk_nonterminating (text : List Char) (size overlap : Nat)
    (hov : 0 < overlap) (hlen : size < text.length) :
    ∀ fuel, pyChunk text size overlap fuel = none := by
  intro fuel
  unfold pyChunk
  rw [if_neg (by omega)]
  exact pyChunkLoop_no_exit text size overlap hov fuel 0 [] (by omega)

/-- C4.  The claim says `_chunk` terminates for every `0 ≤ overlap < size`;
the function's own docstring promises `_chunk("A"*3000, size=1000,
overlap=100)` returns 4 chunks.  In fact once `start` reaches 2900 every
iteration recomputes `end = 3000` and `start = 2900` again, so the loop
never exits: for every fuel bound the loop is still running. -/
theorem chunk_docstring_nontermination :
    ∀ fuel, pyChunk (List.replicate 3000 'A') 1000 100 fuel = none := by
  have h : (List.replicate 3000 'A').length = 3000 := List.length_replicate _ _
  intro fuel
  exact pyChunk_nonterminating _ 1000 100 (by omega) (by omega) fuel

/-- Text of length 4000 = 2 × chunk_size with a 9-digit identifier occupying
positions 1995–2003, i.e. straddling the internal chunk boundary at 2000,
with overlap 100 ≥ 9. -/
def c1BoundaryText : List Char :=
  List.replicate 1995 'a' ++
    ['1', '2', '3', '4', '5', '6', '7', '8', '9'] ++
    List.replicate 1996 'a'

/-- C1.  The claim says the detector returns a boundary-straddling entity
exactly once.  `hits_from_text` (Presidio path, `_process_with_presidio`)
first computes `_chunk(text, chunk_size, overlap)`; on this input that loop
never exits, so `hits_from_text` never returns at all — the entity is
reported neither once nor twice. -/
theorem hits_from_text_boundary_nontermination :
    ∀ fuel, pyChunk c1BoundaryText 2000 100 fuel = none := by
  have h : c1BoundaryText.length = 4000 := by
    unfold c1BoundaryText
    rw [List.length_append, List.length_append, List.length_replicate,
      List.length_replicate]
    rfl
  intro fuel
  exact pyChunk_nonterminating _ 2000 100 (by omega) (by omega) fuel

/-! ## `pii/engine.py`: `EnhancedRobustRecognizer._filter_overlapping_results`

```python
sorted_results = sorted(results, key=lambda x: x.score, reverse=True)
filtered = []
for result in sorted_results:
    overlaps = False
    for accepted in filtered:
        if result.start < accepted.end and result.end > accepted.start:
            overlaps = True
            break
    if not overlaps:
        filtered.append(result)
return filtered
```
-/

/-- The fields of a Presidio `RecognizerResult` used by the filter
(`end` is renamed `stop`, as `end` is a Lean keyword). -/
structure RecResult where
  start : Nat
  stop : Nat
  score : ℚ
  deriving DecidableEq, Repr

/-- `result.start < accepted.end and result.end > accepted.start`. -/
def overlapsB (result accepted : RecResult) : Bool :=
  decide (result.start < accepted.stop) && decide (result.stop > accepted.start)

theorem overlapsB_comm (a b : RecResult) : overlapsB a b = overlapsB b a := by
  unfold overlapsB
  rw [Bool.and_comm]

/-- Stable insertion step for descending sort by `score`: an element is
placed before the first already-sorted element of score `≤` its own, which
reproduces Python's stable `sorted(..., key=score, reverse=True)`. -/
def insertByScoreDesc (r : RecResult) : List RecResult → List RecResult
  | [] => [r]
  | a :: rest => if a.score ≤ r.score then r :: a :: rest else a :: insertByScoreDesc r rest

/-- `sorted(results, key=lambda x: x.score, reverse=True)` (stable). -/
def sortByScoreDesc : List RecResult → List RecResult
  | [] => []
  | r :: rest => insertByScoreDesc r (sortByScoreDesc rest)

/-- The greedy acceptance loop over the sorted results. -/
def filterOverlapAux : List RecResult → List RecResult → List RecResult
  | [], acc => acc
  | r :: rest, acc =>
    if acc.any (fun a => overlapsB r a) then filterOverlapAux rest acc
    else filterOverlapAux rest (acc ++ [r])

/-- `EnhancedRobustRecognizer._filter_overlapping_results`. -/
def filterOverlappingResults (results : List RecResult) : List RecResult :=
  if results = [] then results
  else filterOverlapAux (sortByScoreDesc results) []

theorem filterOverlapAux_pairwise (l : List RecResult) :
    ∀ acc, acc.Pairwise (fun a b => overlapsB a b = false) →
      (filterOverlapAux l acc).Pairwise (fun a b => overlapsB a b = false) := by
  induction l with
  | nil => intro acc h; exact h
  | cons r rest ih =>
    intro acc h
    by_cases hov : acc.any (fun a => overlapsB r a)
    · simpa [filterOverlapAux, hov] using ih acc h
    · have hfalse : acc.any (fun a => overlapsB r a) = false :=
        Bool.eq_false_iff.mpr hov
      have hnone : ∀ a ∈ acc, overlapsB r a = false := by
        intro a ha
        exact Bool.eq_false_iff.mpr (List.any_eq_false.mp hfalse a ha)
      have h' : (acc ++ [r]).Pairwise (fun a b => overlapsB a b = false) := by
        refine List.pairwise_append.mpr ⟨h, List.pairwise_singleton _ _, ?_⟩
        intro a ha b hb
        have hb' : b = r := by simpa using hb
        subst hb'
        rw [overlapsB_comm]
        exact hnone a ha
      simpa [filterOverlapAux, hov] using ih _ h'

/-- C3.  (1) For every raw result list, the filtered list contains no two
results with intersecting spans.  (2) For two overlapping raw matches, the
one of higher confidence is the sole survivor; with equal confidence the
first of the input (first encountered in the stable sort order) survives. -/
theorem filter_overlapping_resolution :
    (∀ results : List RecResult,
      (filterOverlappingResults results).Pairwise (fun a b => overlapsB a b = false))
    ∧ (∀ a b : RecResult, overlapsB a b = true →
        (b.score ≤ a.score → filterOverlappingResults [a, b] = [a])
        ∧ (a.score < b.score → filterOverlappingResults [a, b] = [b])) := by
  constructor
  · intro results
    unfold filterOverlappingResults
    by_cases h : results = []
    · simp [h]
    · rw [if_neg h]
      exact filterOverlapAux_pairwise _ [] (List.Pairwise.nil)
  · intro a b hov
    have hov' : overlapsB b a = true := by rw [overlapsB_comm]; exact hov
    constructor
    · intro hle
      simp [filterOverlappingResults, sortByScoreDesc, insertByScoreDesc, hle,
        filterOverlapAux, hov']
    · intro hlt
      have hnle : ¬ b.score ≤ a.score := not_le.mpr hlt
      simp [filterOverlappingResults, sortByScoreDesc, insertByScoreDesc, hnle,
        filterOverlapAux, hov]

/-- Witness for C3 at concrete spans (0,5) score 0.9 and (3,8) score 0.8. -/
theorem filter_overlapping_resolution_witness :
    overlapsB ⟨0, 5, 9/10⟩ ⟨3, 8, 4/5⟩ = true ∧
      filterOverlappingResults [⟨0, 5, 9/10⟩, ⟨3, 8, 4/5⟩] = [⟨0, 5, 9/10⟩] :=
  ⟨by decide, (filter_overlapping_resolution.2 _ _ (by decide)).1 (by norm_num)⟩

/-! ## `app/large_file_scanner.py`: `UniversalLargeFileScanner._choose_strategy`

Direct translation of the decision table; sizes in MB are rationals
(`size_mb = size_bytes / (1024*1024)` in the source), `0.5` is `1/2`.
`sample_lines` is a parameter of the Python function but is never read. -/

def chooseStrategy (fileSizeMb availableMemoryMb : ℚ) (fileExt : String)
    (isStructured isBinary : Bool) : String :=
  if isBinary then
    if fileSizeMb > 100 then "chunked_streaming" else "standard"
  else if fileExt = ".csv" ∧ fileSizeMb > 50 then "csv_streaming"
  else if fileSizeMb > 500 ∧ isStructured = false then
    if fileSizeMb < availableMemoryMb * (1/2) then "memory_mapped"
    else "parallel_chunks"
  else if fileSizeMb > 100 then "parallel_chunks"
  else if fileSizeMb > 20 then "chunked_streaming"
  else "standard"

/-- C5.  The decision table is evaluated in order, first match winning, and
the two concrete 600 MB scenarios resolve as the spec says. -/
theorem choose_strategy_decision_table :
    (∀ (size avail : ℚ) (ext : String) (str : Bool),
      chooseStrategy size avail ext str true =
        if size > 100 then "chunked_streaming" else "standard")
    ∧ (∀ (size avail : ℚ) (str : Bool), size > 50 →
        chooseStrategy size avail ".csv" str false = "csv_streaming")
    ∧ (∀ (size avail : ℚ) (ext : String), ¬ (ext = ".csv" ∧ size > 50) →
        size > 500 →
        chooseStrategy size avail ext false false =
          if size < avail * (1/2) then "memory_mapped" else "parallel_chunks")
    ∧ (∀ (size avail : ℚ) (ext : String) (str : Bool),
        ¬ (ext = ".csv" ∧ size > 50) → ¬ (size > 500 ∧ str = false) →
        size > 100 →
        chooseStrategy size avail ext str false = "parallel_chunks")
    ∧ (∀ (size avail : ℚ) (ext : String) (str : Bool),
        ¬ (ext = ".csv" ∧ size > 50) → ¬ (size > 500 ∧ str = false) →
        ¬ size > 100 → size > 20 →
        chooseStrategy size avail ext str false = "chunked_streaming")
    ∧ (∀ (size avail : ℚ) (ext : String) (str : Bool),
        ¬ (ext = ".csv" ∧ size > 50) → ¬ (size > 500 ∧ str = false) →
        ¬ size > 100 → ¬ size > 20 →
        chooseStrategy size avail ext str false = "standard")
    ∧ chooseStrategy 600 2000 ".txt" false false = "memory_mapped"
    ∧ chooseStrategy 600 800 ".txt" false false = "parallel_chunks" := by
  refine ⟨?_, ?_, ?_, ?_, ?_, ?_, ?_, ?_⟩
  · intro size avail ext str
    simp [chooseStrategy]
  · intro size avail str h
    simp [chooseStrategy, h]
  · intro size avail ext hcsv h500
    simp [chooseStrategy, hcsv, h500]
  · intro size avail ext str hcsv h500 h100
    simp [chooseStrategy, hcsv, h500, h100]
  · intro size avail ext str hcsv h500 h100 h20
    simp [chooseStrategy, hcsv, h500, h100, h20]
  · intro size avail ext str hcsv h500 h100 h20
    simp [chooseStrategy, hcsv, h500, h100, h20]
  · norm_num [chooseStrategy]
    exact fun h => absurd h (by decide)
  · norm_num [chooseStrategy]
    exact fun h => absurd h (by decide)

/-- Witness for C5: one concrete file profile per row of the decision table. -/
theorem choose_strategy_decision_table_witness :
    chooseStrategy 200 1000 ".log" false true = "chunked_streaming" ∧
    chooseStrategy 60 1000 ".csv" true false = "csv_streaming" ∧
    chooseStrategy 600 2000 ".txt" false false = "memory_mapped" ∧
    chooseStrategy 600 800 ".txt" false false = "parallel_chunks" ∧
    chooseStrategy 150 1000 ".txt" true false = "parallel_chunks" ∧
    chooseStrategy 30 1000 ".txt" true false = "chunked_streaming" ∧
    chooseStrategy 5 1000 ".txt" true false = "standard" := by
  obtain ⟨h1, h2, _, h4, h5, h6, h7, h8⟩ := choose_strategy_decision_table
  refine ⟨?_, ?_, h7, h8, ?_, ?_, ?_⟩
  · rw [h1 200 1000 ".log" false]
    norm_num
  · exact h2 60 1000 true (by norm_num)
  · exact h4 150 1000 ".txt" true (fun h => absurd h.1 (by decide))
      (fun h => by cases h.2) (by norm_num)
  · exact h5 30 1000 ".txt" true (fun h => absurd h.1 (by decide))
      (fun h => by cases h.2) (by norm_num) (by norm_num)
  · exact h6 5 1000 ".txt" true (fun h => absurd h.1 (by decide))
      (fun h => by cases h.2) (by norm_num) (by norm_num)

/-! ## `app/progress.py`: `ProgressTracker`

The mutable counter fields, with `update`, `increment_files` and
`set_total` as state transformers (each runs under `self.lock`, so a run
of the tracker is a sequence of these atomic operations).  Python integers
are `ℤ`; the claim's nonnegativity condition is an explicit hypothesis. -/

structure TrackerState where
  totalItems : Option ℤ
  processedItems : ℤ
  entitiesFound : ℤ
  controlledEntities : ℤ
  noncontrolledEntities : ℤ
  filesProcessed : ℤ
  bytesProcessed : ℤ
  deriving DecidableEq, Repr

inductive TrackerOp where
  | update (processed entities controlled noncontrolled bytesCount : ℤ)
  | incrementFiles (count : ℤ)
  | setTotal (total : ℤ)
  deriving DecidableEq, Repr

/-- One locked operation on the tracker. -/
def applyTrackerOp (s : TrackerState) : TrackerOp → TrackerState
  | .update p e c n b =>
    { s with
      processedItems := s.processedItems + p
      entitiesFound := s.entitiesFound + e
      controlledEntities := s.controlledEntities + c
      noncontrolledEntities := s.noncontrolledEntities + n
      bytesProcessed := s.bytesProcessed + b }
  | .incrementFiles k => { s with filesProcessed := s.filesProcessed + k }
  | .setTotal t => { s with totalItems := some t }

/-- All arguments of an `update`/`increment_files` call are nonnegative. -/
def TrackerOp.argsNonneg : TrackerOp → Prop
  | .update p e c n b => 0 ≤ p ∧ 0 ≤ e ∧ 0 ≤ c ∧ 0 ≤ n ∧ 0 ≤ b
  | .incrementFiles k => 0 ≤ k
  | .setTotal _ => True

def runTrackerOps (s : TrackerState) (ops : List TrackerOp) : TrackerState :=
  ops.foldl applyTrackerOp s

theorem applyTrackerOp_mono (s : TrackerState) (op : TrackerOp)
    (h : op.argsNonneg) :
    s.processedItems ≤ (applyTrackerOp s op).processedItems ∧
    s.entitiesFound ≤ (applyTrackerOp s op).entitiesFound ∧
    s.controlledEntities ≤ (applyTrackerOp s op).controlledEntities ∧
    s.noncontrolledEntities ≤ (applyTrackerOp s op).noncontrolledEntities ∧
    s.bytesProcessed ≤ (applyTrackerOp s op).bytesProcessed ∧
    s.filesProcessed ≤ (applyTrackerOp s op).filesProcessed := by
  cases op with
  | update p e c n b =>
    obtain ⟨h1, h2, h3, h4, h5⟩ := h
    refine ⟨?_, ?_, ?_, ?_, ?_, ?_⟩ <;> simp [applyTrackerOp] <;> omega
  | incrementFiles k =>
    simp only [TrackerOp.argsNonneg] at h
    refine ⟨?_, ?_, ?_, ?_, ?_, ?_⟩ <;> simp [applyTrackerOp] <;> omega
  | setTotal t =>
    refine ⟨?_, ?_, ?_, ?_, ?_, ?_⟩ <;> simp [applyTrackerOp]

/-- C10.  Over any sequence of tracker operations whose `update` /
`increment_files` arguments are nonnegative, every counter is
nondecreasing, and only `set_total` ever writes `total_items`. -/
theorem progress_counters_monotone (s : TrackerState) (ops : List TrackerOp)
    (h : ∀ op ∈ ops, op.argsNonneg) :
    (s.processedItems ≤ (runTrackerOps s ops).processedItems ∧
     s.entitiesFound ≤ (runTrackerOps s ops).entitiesFound ∧
     s.controlledEntities ≤ (runTrackerOps s ops).controlledEntities ∧
     s.noncontrolledEntities ≤ (runTrackerOps s ops).noncontrolledEntities ∧
     s.bytesProcessed ≤ (runTrackerOps s ops).bytesProcessed ∧
     s.filesProcessed ≤ (runTrackerOps s ops).filesProcessed) ∧
    ((∀ op ∈ ops, ∀ t, op ≠ .setTotal t) →
      (runTrackerOps s ops).totalItems = s.totalItems) := by
  induction ops generalizing s with
  | nil => exact ⟨⟨le_refl _, le_refl _, le_refl _, le_refl _, le_refl _, le_refl _⟩,
      fun _ => rfl⟩
  | cons op rest ih =>
    have hop : op.argsNonneg := h op (List.mem_cons_self _ _)
    have hrest : ∀ o ∈ rest, o.argsNonneg := fun o ho => h o (List.mem_cons_of_mem _ ho)
    have step := applyTrackerOp_mono s op hop
    have tail := ih (applyTrackerOp s op) hrest
    constructor
    · have t1 := tail.1
      simp only [runTrackerOps, List.foldl_cons] at *
      exact ⟨le_trans step.1 t1.1, le_trans step.2.1 t1.2.1,
        le_trans step.2.2.1 t1.2.2.1, le_trans step.2.2.2.1 t1.2.2.2.1,
        le_trans step.2.2.2.2.1 t1.2.2.2.2.1, le_trans step.2.2.2.2.2 t1.2.2.2.2.2⟩
    · intro hns
      have hop' : ∀ t, op ≠ TrackerOp.setTotal t :=
        fun t => hns op (List.mem_cons_self _ _) t
      have htot : (applyTrackerOp s op).totalItems = s.totalItems := by
        cases op with
        | update p e c n b => rfl
        | incrementFiles k => rfl
        | setTotal t => exact absurd rfl (hop' t)
      have := tail.2 (fun o ho t => hns o (List.mem_cons_of_mem _ ho) t)
      simp only [runTrackerOps, List.foldl_cons] at this ⊢
      rw [this, htot]

/-- Witness for C10 at a concrete operation sequence. -/
theorem progress_counters_monotone_witness :
    (let s : TrackerState := ⟨none, 0, 0, 0, 0, 0, 0⟩
     let ops : List TrackerOp := [.update 1 2 1 1 10, .incrementFiles 1, .update 3 0 0 0 5]
     s.processedItems ≤ (runTrackerOps s ops).processedItems ∧
       s.filesProcessed ≤ (runTrackerOps s ops).filesProcessed) := by
  have h := progress_counters_monotone ⟨none, 0, 0, 0, 0, 0, 0⟩
    [.update 1 2 1 1 10, .incrementFiles 1, .update 3 0 0 0 5]
    (by intro op hop; fin_cases hop <;> simp [TrackerOp.argsNonneg])
  exact ⟨h.1.1, h.1.2.2.2.2.2⟩

/-! ## `app/dedupe.py`: `DedupeManager`

The file system is a model parameter: `resolve` is `Path.resolve`
(symlink resolution; `os.name != 'nt'`, so no case normalization), and
`stat` returns `none` when `os.stat` raises.  `os.stat` follows symlinks,
so both `real_path.stat()` and `file_path.stat()` consult the same
underlying store.  The canonical key `f"{path}|{size}|{mtime_ns}"` and the
signature `f"{size}:{mtime}"` are represented as structures (the Python
string concatenations, component by component). -/

structure FileStat where
  size : Nat
  mtimeNs : Nat
  /-- `st_mtime`, float seconds. -/
  mtime : ℚ
  deriving DecidableEq, Repr

structure FsModel where
  resolve : String → String
  stat : String → Option FileStat

/-- `realpath|size|mtime_ns`. -/
structure CanonKey where
  path : String
  size : Nat
  mtimeNs : Nat
  deriving DecidableEq, Repr

/-- `f"{stat.st_size}:{stat.st_mtime}"`. -/
structure FileSig where
  size : Nat
  mtime : ℚ
  deriving DecidableEq, Repr

/-- `DedupeManager._get_canonical_key`; `none` is the empty-string key
returned when `resolve`/`stat` raises. -/
def getCanonicalKey (fs : FsModel) (p : String) : Option CanonKey :=
  match fs.stat (fs.resolve p) with
  | some st => some ⟨fs.resolve p, st.size, st.mtimeNs⟩
  | none => none

/-- `DedupeManager._get_file_signature`; `none` is the empty string. -/
def getFileSignature (fs : FsModel) (p : String) : Option FileSig :=
  match fs.stat p with
  | some st => some ⟨st.size, st.mtime⟩
  | none => none

structure DedupeState where
  summaryIndex : List CanonKey
  seen : List (String × FileSig)
  deriving DecidableEq

/-- `DedupeManager.is_duplicate`. -/
def isDuplicate (fs : FsModel) (st : DedupeState) (p : String) : Bool :=
  match getCanonicalKey fs p with
  | none => false
  | some key =>
    if key ∈ st.summaryIndex then true
    else
      match getFileSignature fs p with
      | none => false
      | some sig =>
        decide (st.seen.lookup (fs.resolve p) = some sig)

/-- Modelled from the spec: canonical-key construction whose stat-failure
case "fall(s) back to a path-only key (weaker but safe)". -/
inductive SpecKey where
  | full (path : String) (size mtimeNs : Nat)
  | pathOnly (path : String)
  deriving DecidableEq, Repr

/-- Modelled from the spec: key construction with the path-only fallback. -/
def specCanonicalKey (fs : FsModel) (p : String) : SpecKey :=
  match fs.stat (fs.resolve p) with
  | some st => .full (fs.resolve p) st.size st.mtimeNs
  | none => .pathOnly (fs.resolve p)

/-- Modelled from the spec: `is_duplicate` over spec keys ("true if
CanonicalKey(path) is present in the persisted processed-set, OR if the
path's current Signature equals the last recorded signature"). -/
def specIsDuplicate (fs : FsModel) (index : List SpecKey)
    (seen : List (String × FileSig)) (p : String) : Bool :=
  decide (specCanonicalKey fs p ∈ index) ||
    (match getFileSignature fs p with
     | none => false
     | some sig => decide (seen.lookup (fs.resolve p) = some sig))

/-- File system in which every `stat` fails. -/
def fsAllStatFail : FsModel := ⟨fun p => p, fun _ => none⟩

/-- C7 counterexample.  The claim says that when stat fails the canonical
key falls back to a path-only key.  In the code `_get_canonical_key`
returns the empty string instead and `is_duplicate` returns `False`
unconditionally — even for a path whose path-only key (as the spec
prescribes it) is in the processed-set. -/
theorem is_duplicate_no_pathonly_fallback :
    getCanonicalKey fsAllStatFail "/data/f.txt" = none ∧
    isDuplicate fsAllStatFail
      ⟨[⟨"/data/f.txt", 7, 7⟩], [("/data/f.txt", ⟨7, 7⟩)]⟩ "/data/f.txt" = false ∧
    specCanonicalKey fsAllStatFail "/data/f.txt" = .pathOnly "/data/f.txt" ∧
    specIsDuplicate fsAllStatFail [.pathOnly "/data/f.txt"]
      [("/data/f.txt", ⟨7, 7⟩)] "/data/f.txt" = true :=
  ⟨rfl, rfl, rfl, rfl⟩

/-- C7 amended.  `is_duplicate(path)` is true iff stat of the resolved path
succeeds and either the canonical key `resolved|size|mtime_ns` is in the
persisted processed-set or the path's current signature equals the
signature recorded for the resolved path; when stat fails the key is the
empty string and the result is `False` (there is no path-only fallback). -/
theorem is_duplicate_characterization (fs : FsModel) (st : DedupeState)
    (p : String) :
    isDuplicate fs st p = true ↔
      ∃ fst, fs.stat (fs.resolve p) = some fst ∧
        ((⟨fs.resolve p, fst.size, fst.mtimeNs⟩ : CanonKey) ∈ st.summaryIndex ∨
         ∃ fst2, fs.stat p = some fst2 ∧
           st.seen.lookup (fs.resolve p) = some ⟨fst2.size, fst2.mtime⟩) := by
  unfold isDuplicate getCanonicalKey getFileSignature
  cases hres : fs.stat (fs.resolve p) with
  | none =>
    simp
  | some fst =>
    by_cases hidx : (⟨fs.resolve p, fst.size, fst.mtimeNs⟩ : CanonKey) ∈ st.summaryIndex
    · simp [hidx]
    · simp only [hidx, if_false, Bool.if_false_left]
      cases hp : fs.stat p with
      | none => simp [hidx]
      | some fst2 => simp [hidx]

/-! ## `app/resume_manager.py`: `ResumeManager.load_checkpoint`

`get_file_fingerprint` hashes `f"{file_path}:{stat.st_size}:{stat.st_mtime}"`
(md5, 16 hex chars), falling back to a hash of the path alone when stat
raises; hashes are modelled as the hashed components themselves.
`save_time` is an ISO timestamp; it is modelled in epoch seconds (`ℤ`),
with `bad` for a string `datetime.fromisoformat` rejects and `empty` for a
missing/empty field.  The checkpoint file for the fingerprint of the
queried path is `none` when absent, `some none` when present but
unparsable (corrupted JSON), `some (some cd)` when it parses to `cd`. -/

inductive Fingerprint where
  | full (path : String) (size : Nat) (mtime : ℚ)
  | pathOnly (path : String)
  deriving DecidableEq, Repr

/-- `ResumeManager.get_file_fingerprint`. -/
def getFileFingerprint (fs : FsModel) (p : String) : Fingerprint :=
  match fs.stat p with
  | some st => .full p st.size st.mtime
  | none => .pathOnly p

inductive SaveTime where
  | empty
  | bad
  | at_ (t : ℤ)
  deriving DecidableEq, Repr

structure CheckpointData where
  filePath : String
  fingerprint : Fingerprint
  saveTime : SaveTime
  /-- The `progress` payload (opaque for these claims). -/
  progress : List (String × ℤ)
  deriving DecidableEq, Repr

/-- `ResumeManager._is_checkpoint_valid` at current time `now` (epoch
seconds): path matches, fingerprint matches, and
`(now - save_time)/3600 > 24` is false (a missing `save_time` skips the
age check). -/
def isCheckpointValid (fs : FsModel) (now : ℤ) (cd : CheckpointData)
    (p : String) : Bool :=
  decide (cd.filePath = p) &&
    decide (cd.fingerprint = getFileFingerprint fs p) &&
    (match cd.saveTime with
     | .empty => true
     | .bad => false
     | .at_ t => decide (¬ now - t > 86400))

/-- `ResumeManager.load_checkpoint`.  Result: the returned checkpoint (or
`none`) paired with the state of the checkpoint file afterwards (`none` =
absent / deleted). -/
def loadCheckpoint (fs : FsModel) (now : ℤ) (p : String)
    (store : Option (Option CheckpointData)) :
    Option CheckpointData × Option (Option CheckpointData) :=
  match store with
  | none => (none, none)
  | some none => (none, none)
  | some (some cd) =>
    if isCheckpointValid fs now cd p then (some cd, some (some cd))
    else (none, none)

/-- C8.  For a checkpoint written by `save_checkpoint` for this path (so
its `file_path` field is the path and its `save_time` parses),
`load_checkpoint` returns it iff its fingerprint matches the file's
current fingerprint and its age is within the 24-hour staleness threshold;
in every other case where a checkpoint file exists — stale, fingerprint
mismatch, or corrupted — the file is deleted and `None` is returned. -/
theorem load_checkpoint_validity (fs : FsModel) (now : ℤ) (p : String)
    (cd : CheckpointData) (hpath : cd.filePath = p)
    (t : ℤ) (htime : cd.saveTime = .at_ t) :
    (loadCheckpoint fs now p (some (some cd)) = (some cd, some (some cd)) ↔
      cd.fingerprint = getFileFingerprint fs p ∧ now - t ≤ 86400) ∧
    (¬ (cd.fingerprint = getFileFingerprint fs p ∧ now - t ≤ 86400) →
      loadCheckpoint fs now p (some (some cd)) = (none, none)) ∧
    loadCheckpoint fs now p (some none) = (none, none) := by
  have hvalid : isCheckpointValid fs now cd p = true ↔
      cd.fingerprint = getFileFingerprint fs p ∧ now - t ≤ 86400 := by
    simp [isCheckpointValid, hpath, htime]
  refine ⟨?_, ?_, rfl⟩
  · constructor
    · intro h
      by_cases hv : isCheckpointValid fs now cd p
      · exact hvalid.mp hv
      · simp [loadCheckpoint, hv] at h
    · intro h
      simp [loadCheckpoint, hvalid.mpr h]
  · intro h
    have hv : isCheckpointValid fs now cd p = false := by
      rw [Bool.eq_false_iff]
      intro hcontr
      exact h (hvalid.mp hcontr)
    simp [loadCheckpoint, hv]

/-- Witness for C8: a fresh, matching checkpoint is returned; the same
checkpoint 25 hours later is deleted. -/
theorem load_checkpoint_validity_witness :
    (let fs : FsModel := ⟨fun p => p, fun _ => some ⟨10, 5, 5⟩⟩
     let cd : CheckpointData :=
       ⟨"/data/f.txt", .full "/data/f.txt" 10 5, .at_ 1000, []⟩
     loadCheckpoint fs 2000 "/data/f.txt" (some (some cd)) =
        (some cd, some (some cd)) ∧
       loadCheckpoint fs 90401 "/data/f.txt" (some (some cd)) = (none, none)) := by
  constructor
  · exact (load_checkpoint_validity ⟨fun p => p, fun _ => some ⟨10, 5, 5⟩⟩ 2000
      "/data/f.txt" ⟨"/data/f.txt", .full "/data/f.txt" 10 5, .at_ 1000, []⟩ rfl
      1000 rfl).1.mpr ⟨rfl, by norm_num⟩
  · exact (load_checkpoint_validity ⟨fun p => p, fun _ => some ⟨10, 5, 5⟩⟩ 90401
      "/data/f.txt" ⟨"/data/f.txt", .full "/data/f.txt" 10 5, .at_ 1000, []⟩ rfl
      1000 rfl).2.1 (fun h => by have := h.2; norm_num at this)

/-! ## `app/resume_manager.py`: `ResumeManager.acquire_lock`

```python
self.lock_fd = open(self.lock_file, "w")          # truncates the sentinel
fcntl.flock(self.lock_fd.fileno(), fcntl.LOCK_EX | fcntl.LOCK_NB)
json.dump(lock_info, self.lock_fd); self.lock_fd.flush()
return True
# except OSError: ... return False
```

Two concurrent calls (processes A and B) are modelled as interleavings of
two atomic events each: `open` (mode `"w"`, which truncates the sentinel
file — `flock` does not prevent opening) and the non-blocking `flock`
attempt, which atomically acquires the lock and, on success, is followed
by the metadata write (folded into the same event; the only other mutation
any schedule can interleave there is the other call's truncation, which is
covered by the schedules below).  `LockMachine.holder` is the kernel's
flock owner; `content` is the sentinel file's content (`none` = empty). -/

structure LockMachine where
  holder : Option Nat
  content : Option Nat
  deriving DecidableEq, Repr

inductive LockEvt where
  | openA
  | flockA
  | openB
  | flockB
  deriving DecidableEq, Repr

/-- One atomic event of the two concurrent `acquire_lock` calls; the state
carries each call's result once it has returned. -/
def applyLockEvt (pa pb : Nat) (s : LockMachine × Option Bool × Option Bool) :
    LockEvt → LockMachine × Option Bool × Option Bool
  | .openA => (⟨s.1.holder, none⟩, s.2.1, s.2.2)
  | .flockA =>
    match s.1.holder with
    | none => (⟨some pa, some pa⟩, some true, s.2.2)
    | some h => (⟨some h, s.1.content⟩, some false, s.2.2)
  | .openB => (⟨s.1.holder, none⟩, s.2.1, s.2.2)
  | .flockB =>
    match s.1.holder with
    | none => (⟨some pb, some pb⟩, s.2.1, some true)
    | some h => (⟨some h, s.1.content⟩, s.2.1, some false)

def runLockEvts (pa pb : Nat) (l : List LockEvt) :
    LockMachine × Option Bool × Option Bool :=
  l.foldl (applyLockEvt pa pb) (⟨none, none⟩, none, none)

/-- The six interleavings of the two ordered event pairs
(`openA` before `flockA`, `openB` before `flockB`, each event once). -/
def lockInterleavings : List (List LockEvt) :=
  [[.openA, .flockA, .openB, .flockB],
   [.openA, .openB, .flockA, .flockB],
   [.openA, .openB, .flockB, .flockA],
   [.openB, .openA, .flockA, .flockB],
   [.openB, .openA, .flockB, .flockA],
   [.openB, .flockB, .openA, .flockA]]

/-- C9 counterexample.  In the schedule where A fully acquires the lock and
writes its metadata before B starts, B's `open(lock_file, "w")` truncates
the sentinel (erasing A's metadata) even though B's `flock` then fails:
the losing call does perform a write. -/
theorem acquire_lock_loser_truncates :
    runLockEvts 1 2 [.openA, .flockA] = (⟨some 1, some 1⟩, some true, none) ∧
    runLockEvts 1 2 [.openA, .flockA, .openB, .flockB] =
      (⟨some 1, none⟩, some true, some false) :=
  ⟨rfl, rfl⟩

/-- C9 amended.  For two concurrent `acquire_lock` calls, under every
interleaving exactly one call succeeds and the other returns `False`
without blocking — but the losing call is not write-free: its
open-for-write may truncate the sentinel file (see the counterexample). -/
theorem acquire_lock_exclusive (pa pb : Nat) (l : List LockEvt)
    (hl : l ∈ lockInterleavings) :
    (runLockEvts pa pb l).2.1 = some true ∧
        (runLockEvts pa pb l).2.2 = some false ∨
      (runLockEvts pa pb l).2.1 = some false ∧
        (runLockEvts pa pb l).2.2 = some true := by
  fin_cases hl
  · exact Or.inl ⟨rfl, rfl⟩
  · exact Or.inl ⟨rfl, rfl⟩
  · exact Or.inr ⟨rfl, rfl⟩
  · exact Or.inl ⟨rfl, rfl⟩
  · exact Or.inr ⟨rfl, rfl⟩
  · exact Or.inr ⟨rfl, rfl⟩

/-- Witness for C9 at a concrete schedule. -/
theorem acquire_lock_exclusive_witness :
    (runLockEvts 41 42 [.openA, .openB, .flockB, .flockA]).2.1 = some false ∧
      (runLockEvts 41 42 [.openA, .openB, .flockB, .flockA]).2.2 = some true := by
  have h := acquire_lock_exclusive 41 42 [.openA, .openB, .flockB, .flockA]
    (by simp [lockInterleavings])
  rcases h with h | h
  · exact absurd h.1 (by decide)
  · exact h

/-! ## String-scanning primitives for the embedded regexes

Each regex of the repository is embedded as a dedicated matcher whose
existential structure reproduces the backtracking semantics of `re`.
Strings are `List Char`; case-insensitive matching lowercases through
`Char.toLower` (the patterns are ASCII). -/

/-- Length of the maximal prefix satisfying `p` (a greedy `X+`/`X*` whose
follower class is disjoint from `X`). -/
def runLen (p : Char → Bool) : List Char → Nat
  | [] => 0
  | c :: cs => if p c then runLen p cs + 1 else 0

def startsWithCS : List Char → List Char → Bool
  | [], _ => true
  | _ :: _, [] => false
  | w :: ws, c :: cs => (w = c) && startsWithCS ws cs

def startsWithCI : List Char → List Char → Bool
  | [], _ => true
  | _ :: _, [] => false
  | w :: ws, c :: cs => (w.toLower = c.toLower) && startsWithCI ws cs

/-- Case-sensitive substring containment (Python `in`). -/
def containsSub (w s : List Char) : Bool :=
  (List.range (s.length + 1)).any fun i => startsWithCS w (s.drop i)

/-- Case-insensitive substring search (an `re.IGNORECASE` literal with no
anchors or boundaries). -/
def containsCI (w s : List Char) : Bool :=
  (List.range (s.length + 1)).any fun i => startsWithCI w (s.drop i)

def isWordOpt : Option Char → Bool
  | none => false
  | some c => isWordChar c

def prevChar (s : List Char) (i : Nat) : Option Char :=
  if i = 0 then none else s.get? (i - 1)

/-- `re.search(r"\b(w)\b", s, re.IGNORECASE)` hitting at position `i` for a
literal alternative `w`: `\b` holds where exactly one side is a word
character. -/
def wordHitAt (w s : List Char) (i : Nat) : Bool :=
  startsWithCI w (s.drop i) &&
    (isWordOpt (prevChar s i) != isWordOpt w.head?) &&
    (isWordOpt w.getLast? != isWordOpt (s.get? (i + w.length)))

/-- `re.search(r"\b(w1|w2|...)\b", s, re.IGNORECASE)` for literal
alternatives. -/
def searchWordsCI (ws : List (List Char)) (s : List Char) : Bool :=
  ws.any fun w => (List.range (s.length + 1)).any fun i => wordHitAt w s i

/-- Consume an optional single character (`c?` where the follower class is
disjoint, as in the embedded phone patterns). -/
def dropOpt (p : Char → Bool) : List Char → List Char
  | [] => []
  | c :: cs => if p c then cs else c :: cs

/-- Consume exactly `n` digits. -/
def expectDigits (n : Nat) (s : List Char) : Option (List Char) :=
  if (s.take n).length = n ∧ (s.take n).all Char.isDigit then some (s.drop n)
  else none

/-- `s.replace(w, "")`, left to right, non-overlapping (fuel = `s.length`
suffices as every step consumes at least one character). -/
def removeSubFuel (w : List Char) : Nat → List Char → List Char
  | 0, s => s
  | _ + 1, [] => []
  | fuel + 1, c :: cs =>
    if w ≠ [] ∧ startsWithCS w (c :: cs) = true then
      removeSubFuel w fuel ((c :: cs).drop w.length)
    else c :: removeSubFuel w fuel cs

def removeSub (w s : List Char) : List Char :=
  removeSubFuel w s.length s

/-- `∃` a run of at least `k` digits (regex `\d{k,m}` under `re.search`). -/
def hasDigitRun (k : Nat) (s : List Char) : Bool :=
  (List.range (s.length + 1)).any fun i =>
    ((s.drop i).take k).length = k && ((s.drop i).take k).all Char.isDigit

def stripPwsLeft (s : List Char) : List Char := s.dropWhile isPySpace

/-- Python `str.strip()` (ASCII whitespace fragment). -/
def stripPws (s : List Char) : List Char :=
  ((stripPwsLeft s).reverse.dropWhile isPySpace).reverse

def natOfDigits (l : List Char) : ℤ :=
  l.foldl (fun a c => a * 10 + (c.toNat - 48 : ℤ)) 0

/-- Python `int(s)`: optional sign, nonempty digits, surrounding whitespace
allowed; `none` models the `ValueError`. -/
def parsePyInt (s : List Char) : Option ℤ :=
  let t := stripPws s
  match t with
  | '+' :: rest =>
    if rest ≠ [] ∧ rest.all Char.isDigit then some (natOfDigits rest) else none
  | '-' :: rest =>
    if rest ≠ [] ∧ rest.all Char.isDigit then some (-(natOfDigits rest)) else none
  | _ => if t ≠ [] ∧ t.all Char.isDigit then some (natOfDigits t) else none

/-! ## `config.py` constants used by the validator -/

def minConfidence : ℚ := 1/2
def contextBoost : ℚ := 1/5
def falsePositivePenalty : ℚ := 3/10

def contextKeywords : List (List Char) :=
  ["ssn", "social security", "tax id", "tin", "itin", "ein",
   "employee id", "patient id", "member id", "account number",
   "name:", "address:", "phone:", "email:", "dob:", "date of birth:",
   "contact:", "customer:", "client:", "patient:", "employee:",
   "credit card", "debit card", "bank account", "routing number",
   "iban", "swift", "payment", "billing",
   "passport", "license", "visa", "permit", "certificate"].map String.toList

def falsePositiveIndicators : List (List Char) :=
  ["version", "build", "release", "commit", "hash", "uuid",
   "timestamp", "datetime", "epoch", "unix",
   "example", "sample", "test", "demo", "dummy", "fake",
   "placeholder", "template", "mock", "lorem ipsum",
   "documentation", "readme", "changelog", "license",
   "http://", "https://", "ftp://", "file://",
   "localhost", "127.0.0.1", "0.0.0.0"].map String.toList

/-- `config.INVALID_SSN_PATTERNS`.  NOTE: validator.py imports this value
under the name `INVALID_ID_PATTERNS`, which `config.py` does not define —
see `presidioValidatorAvailable` below. -/
def invalidIdPatterns : List (List Char) :=
  ["000-00-0000", "111-11-1111", "222-22-2222", "333-33-3333",
   "444-44-4444", "555-55-5555", "666-66-6666", "777-77-7777",
   "888-88-8888", "999-99-9999", "123-45-6789", "987-65-4321",
   "078-05-1120"].map String.toList

def invalidAreaCodes : List (List Char) :=
  ["000", "111", "222", "333", "444", "555", "666", "777", "888", "999",
   "555"].map String.toList

/-! ## `pii/validator.py`: `ContextValidator` -/

/-- `ContextValidator._check_context`. -/
def checkContext (context : List Char) : ℚ :=
  if context = [] then 0
  else
    (if searchWordsCI contextKeywords context then contextBoost else 0) -
      (if searchWordsCI falsePositiveIndicators context then falsePositivePenalty else 0)

/-- Luhn accumulator of `ContextValidator._luhn_check` over the reversed
digit list (`i` is the reversed index; odd positions are doubled with
`n - 9` when `n*2 > 9`). -/
def luhnAcc : List Nat → Nat → Nat
  | [], _ => 0
  | d :: ds, i =>
    (if i % 2 = 1 then (if d * 2 > 9 then d * 2 - 9 else d * 2) else d) +
      luhnAcc ds (i + 1)

/-- `ContextValidator._luhn_check` (its internal `ValueError` guard fires
when a non-digit slips in). -/
def luhnCheck (digits : List Char) : Bool :=
  if digits = [] || digits.length < 13 then false
  else if ¬ digits.all Char.isDigit then false
  else decide (luhnAcc (digits.reverse.map fun c => c.toNat - 48) 0 % 10 = 0)

def knownTestCards : List (List Char) :=
  ["4111111111111111", "5555555555554444", "378282246310005"].map String.toList

/-- `ContextValidator.validate_credit_card`. -/
def validateCreditCard (value context : List Char) : Bool × ℚ :=
  let digits := value.filter Char.isDigit
  if luhnCheck digits = false then (false, 0)
  else if knownTestCards.contains digits then (false, 0)
  else (true, checkContext context)

/-- `version|v\d+\.\d+\.\d+` (IGNORECASE) hitting at position `i`. -/
def versionNumAt (s : List Char) (i : Nat) : Bool :=
  match s.drop i with
  | c :: rest =>
    (c.toLower = 'v') &&
      (let d1 := runLen Char.isDigit rest
       d1 ≥ 1 &&
         match rest.drop d1 with
         | '.' :: rest2 =>
           let d2 := runLen Char.isDigit rest2
           d2 ≥ 1 &&
             match rest2.drop d2 with
             | '.' :: rest3 => runLen Char.isDigit rest3 ≥ 1
             | _ => false
         | _ => false)
  | [] => false

def versionSearch (s : List Char) : Bool :=
  containsCI "version".toList s ||
    (List.range (s.length + 1)).any fun i => versionNumAt s i

/-- `ContextValidator.validate_id`; `none` models the uncaught
`ValueError` of `int(area)`. -/
def validateId (value context : List Char) : Option (Bool × ℚ) :=
  let normalized := value.filter fun c => ¬ (c = '-' ∨ c = ' ' ∨ c = '.')
  if invalidIdPatterns.contains value then some (false, 0)
  else if normalized.eraseDups.length = 1 then some (false, 0)
  else if startsWithCS "000".toList normalized || startsWithCS "666".toList normalized then
    some (false, 0)
  else
    let area := normalized.take 3
    if area = "000".toList then some (false, 0)
    else
      match parsePyInt area with
      | none => none
      | some n =>
        if n > 899 then some (false, 0)
        else
          some (true, checkContext context - (if versionSearch context then 1/2 else 0))

/-- `re.match(r"\(?(\d{3})\)?[-.\s]?\d{3}[-.\s]?\d{4}", value)`: anchored
at the start, returning the captured area code on success.  All optional
elements have follower classes disjoint from their own class, so greedy
single-pass consumption equals the regex. -/
def usPhoneAreaMatch (s : List Char) : Option (List Char) :=
  let s1 := dropOpt (· = '(') s
  match expectDigits 3 s1 with
  | none => none
  | some rest =>
    let r1 := dropOpt (· = ')') rest
    let r2 := dropOpt isPhoneSep r1
    match expectDigits 3 r2 with
    | none => none
    | some r3 =>
      let r4 := dropOpt isPhoneSep r3
      match expectDigits 4 r4 with
      | none => none
      | some _ => some (s1.take 3)

/-- `timestamp|unix|epoch|\d{10,13}` (IGNORECASE, unanchored). -/
def timestampSearch (s : List Char) : Bool :=
  containsCI "timestamp".toList s || containsCI "unix".toList s ||
    containsCI "epoch".toList s || hasDigitRun 10 s

/-- `ContextValidator.validate_phone`; `none` models the uncaught
`ValueError` of `int(rest[:4])`. -/
def validatePhone (value context : List Char) : Option (Bool × ℚ) :=
  let cont : Bool × ℚ :=
    (true, checkContext context - (if timestampSearch context then 2/5 else 0))
  match usPhoneAreaMatch value with
  | none => some cont
  | some area =>
    if invalidAreaCodes.contains area then
      if area = "555".toList then
        let rest := ((removeSub area value).filter (· ≠ '-')).filter (· ≠ ' ')
        match parsePyInt (rest.take 4) with
        | none => none
        | some n => if ¬ (100 ≤ n ∧ n ≤ 199) then some (false, 0) else some cont
      else some (false, 0)
    else some cont

/-- `ContextValidator.validate_email`. -/
def validateEmail (value context : List Char) : Bool × ℚ :=
  let lowerEmail := value.map Char.toLower
  if (["example.com", "test.com", "demo.com", "sample.com", "localhost",
       "127.0.0.1"].map String.toList).any (fun t => containsSub t lowerEmail) then
    (false, 0)
  else
    let adj : ℚ :=
      if (["noreply@", "no-reply@", "donotreply@", "system@", "admin@",
           "root@"].map String.toList).any (fun t => containsSub t lowerEmail) then
        -(3/10) else 0
    (true, adj + checkContext context)

/-- `ContextValidator.validate_address`. -/
def validateAddress (value context : List Char) : Bool × ℚ :=
  let lowerAddr := value.map Char.toLower
  if (["123 main st", "123 fake st", "1234 test lane",
       "example address"].map String.toList).any (fun t => containsSub t lowerAddr) then
    (false, 0)
  else (true, checkContext context)

def clamp01 (q : ℚ) : ℚ := max 0 (min 1 q)

/-- Shared tail of `validate_entity`: add the adjustment, clamp to [0,1],
reject below `MIN_CONFIDENCE`. -/
def finishValidation (confidence adj : ℚ) : Bool × ℚ :=
  let nc := clamp01 (confidence + adj)
  if nc < minConfidence then (false, nc) else (true, nc)

/-- `ContextValidator.validate_entity`; `none` models an uncaught
exception from a specific validator. -/
def validateEntity (entityType : String) (value context : List Char)
    (confidence : ℚ) : Option (Bool × ℚ) :=
  if entityType = "ID" then
    (validateId value context).map fun r =>
      if r.1 = false then (false, 0) else finishValidation confidence r.2
  else if entityType = "PHONE_NUMBER" then
    (validatePhone value context).map fun r =>
      if r.1 = false then (false, 0) else finishValidation confidence r.2
  else if entityType = "CREDIT_CARD" then
    some (let r := validateCreditCard value context
          if r.1 = false then (false, 0) else finishValidation confidence r.2)
  else if entityType = "EMAIL_ADDRESS" then
    some (let r := validateEmail value context
          if r.1 = false then (false, 0) else finishValidation confidence r.2)
  else if entityType = "ADDRESS" then
    some (let r := validateAddress value context
          if r.1 = false then (false, 0) else finishValidation confidence r.2)
  else some (finishValidation confidence (checkContext context))

/-! ## `pii/classifier.py`: checksum helpers -/

/-- `classifier.validate_luhn` (13–19 digits, `divmod(d*2, 10)` summing). -/
def validateLuhn (number : List Char) : Bool :=
  let ds := (number.filter Char.isDigit).map fun c => c.toNat - 48
  if ds.length < 13 || ds.length > 19 then false
  else decide (luhnAcc ds.reverse 0 % 10 = 0)

/-- `classifier.validate_aba_routing`: 9 digits, weights
`[3,7,1,3,7,1,3,7,1]`, weighted sum `% 10 == 0`. -/
def validateAbaRouting (routing : List Char) : Bool :=
  if ¬ (routing ≠ [] ∧ routing.all Char.isDigit) ∨ routing.length ≠ 9 then false
  else
    let ds := routing.map fun c => c.toNat - 48
    let ws := [3, 7, 1, 3, 7, 1, 3, 7, 1]
    decide ((List.zipWith (· * ·) ds ws).sum % 10 = 0)

/-! ## `pii/engine.py`: validation wiring of `_process_with_presidio` -/

/-- Whether `_process_with_presidio` obtains a `ContextValidator`.
`FEATURES["context_validation"]` is `True`, but
`from .validator import ContextValidator` executes validator.py's
`from config import INVALID_ID_PATTERNS`, and `config.py` defines only
`INVALID_SSN_PATTERNS` — the import raises `ImportError`, the
`except ImportError: pass` swallows it, and `validator` stays `None`. -/
def presidioValidatorAvailable : Bool := false

/-- Whether an analyzer result survives the `if validator: ... continue`
gate of `_process_with_presidio` and is emitted as an `EntityHit`. -/
def presidioHitAccepted (entityType : String) (value context : List Char)
    (score : ℚ) : Bool :=
  if presidioValidatorAvailable then
    match validateEntity entityType value context score with
    | some r => r.1
    | none => false
  else true

/-- Fallback pattern `\b\d{9}\b` for `BANK_ROUTING`
(`recognizers.FALLBACK_REGEX`); `_process_with_fallback` emits every match
as a hit with no checksum validation. -/
def bankRoutingFallbackSearch (s : List Char) : Bool :=
  (List.range (s.length + 1)).any fun i =>
    isWordOpt (prevChar s i) = false &&
      ((s.drop i).take 9).length = 9 && ((s.drop i).take 9).all Char.isDigit &&
      isWordOpt (s.get? (i + 9)) = false

/-- C2.  The claim says Luhn-failing card numbers and ABA-failing routing
numbers are never returned as accepted hits.  In the code: (1) the card
`4111111111111112` fails Luhn and `ContextValidator.validate_credit_card`
would reject it, but (2) the validator is never constructed (ImportError
on `INVALID_ID_PATTERNS`), so (3) the Presidio path accepts the hit
anyway; (4) `123456789` fails the ABA checksum, yet (5) even an active
`validate_entity` has no `BANK_ROUTING` branch and would accept it at the
pattern confidence 0.8, and (6) the fallback path's `\b\d{9}\b` pattern
matches it and emits it unvalidated. -/
theorem checksum_gating_not_enforced :
    luhnCheck "4111111111111112".toList = false ∧
    validateCreditCard "4111111111111112".toList [] = (false, 0) ∧
    presidioValidatorAvailable = false ∧
    presidioHitAccepted "CREDIT_CARD" "4111111111111112".toList [] (9/10) = true ∧
    validateAbaRouting "123456789".toList = false ∧
    validateEntity "BANK_ROUTING" "123456789".toList [] (4/5) = some (true, 4/5) ∧
    bankRoutingFallbackSearch "Routing: 123456789.".toList = true := by
  refine ⟨by decide, by decide, rfl, rfl, by decide, ?_, by decide⟩
  show validateEntity "BANK_ROUTING" "123456789".toList [] (4/5) = some (true, 4/5)
  have hne : ∀ t : String, t ∈ ["ID", "PHONE_NUMBER", "CREDIT_CARD",
      "EMAIL_ADDRESS", "ADDRESS"] → "BANK_ROUTING" ≠ t := by decide
  rw [validateEntity]
  rw [if_neg (hne "ID" (by simp)), if_neg (hne "PHONE_NUMBER" (by simp)),
    if_neg (hne "CREDIT_CARD" (by simp)), if_neg (hne "EMAIL_ADDRESS" (by simp)),
    if_neg (hne "ADDRESS" (by simp))]
  norm_num [finishValidation, checkContext, clamp01, minConfidence]

/-! ## `pii/classifier.py`: `SimplifiedControlledDetector`

`classify_entity` lowercases the context and dispatches; the fixed entity
types return before any helper runs.  Each helper regex is embedded as a
matcher following the backtracking semantics of `re` (bounded
repetitions become explicit alternatives, `+` over a class whose follower
class is disjoint becomes the maximal run). -/

/-- Consume exactly `n` characters satisfying `p`. -/
def expectCount (p : Char → Bool) (n : Nat) (s : List Char) :
    Option (List Char) :=
  if (s.take n).length = n ∧ (s.take n).all p then some (s.drop n) else none

/-- `^\+?1[\s\-\.]?\(?[2-9]\d{2}\)?[\s\-\.]?\d{3}[\s\-\.]?\d{4}$`
(anchored both ends; every optional element's class is disjoint from its
follower class, so single-pass greedy consumption equals the regex). -/
def usPhoneFullMatch (s : List Char) : Bool :=
  match dropOpt (· = '+') s with
  | '1' :: r0 =>
    let r1 := dropOpt (· = '(') (dropOpt isPhoneSep r0)
    match r1 with
    | c :: r2 =>
      isDigit29 c &&
        (match expectDigits 2 r2 with
         | some r3 =>
           let r4 := dropOpt isPhoneSep (dropOpt (· = ')') r3)
           (match expectDigits 3 r4 with
            | some r5 =>
              (match expectDigits 4 (dropOpt isPhoneSep r5) with
               | some r6 => decide (r6 = [])
               | none => false)
            | none => false)
         | none => false)
    | [] => false
  | _ => false

/-- `^\+(?!1\b)\d{1,4}[\s\-\.]?\d` under `re.search` (the `^` anchors it):
after `+`, the negative lookahead fails the match when a lone `1`
follows; then some `k ∈ [1,4]` digits, an optional separator, one digit. -/
def plusIntlMatch (s : List Char) : Bool :=
  match s with
  | '+' :: rest =>
    let negLook : Bool :=
      match rest with
      | '1' :: r2 => !isWordOpt r2.head?
      | _ => false
    if negLook then false
    else
      [1, 2, 3, 4].any fun k =>
        (match expectDigits k rest with
         | some after =>
           (match after with
            | c :: cs =>
              if c.isDigit then true
              else if isPhoneSep c then
                (match cs with
                 | d :: _ => d.isDigit
                 | [] => false)
              else false
            | [] => false)
         | none => false)
  | _ => false

/-- `SimplifiedControlledDetector._classify_phone` (the context argument
is never read by the source). -/
def classifyPhone (phone context : List Char) : String × ℚ :=
  if usPhoneFullMatch phone = true then ("Controlled", 19/20)
  else if plusIntlMatch phone = true then ("NonControlled", 9/10)
  else
    let cleaned := phone.filter Char.isDigit
    if cleaned.length = 10 ∧ (cleaned.head?.map isDigit29).getD false = true then
      ("Controlled", 4/5)
    else if cleaned.length = 11 ∧ cleaned.head? = some '1' then ("Controlled", 17/20)
    else if cleaned.length > 11 then ("NonControlled", 3/4)
    else if cleaned.length < 10 then ("NonControlled", 3/5)
    else ("Controlled", 1/2)

/-- `\b[A-Z]{2}\s+\d{5}(?:-\d{4})?\b` hitting at `i` (the trailing `\b`
reduces to "the character after the 5th digit is not a word character":
if it is a digit both branches fail, and `-` is itself a non-word
character satisfying the group-free branch). -/
def stateZipAt (s : List Char) (i : Nat) : Bool :=
  !isWordOpt (prevChar s i) &&
    (match s.drop i with
     | u1 :: u2 :: rest =>
       u1.isUpper && u2.isUpper &&
         (let w := runLen isPySpace rest
          decide (w ≥ 1) &&
            (let t := rest.drop w
             decide ((t.take 5).length = 5) && (t.take 5).all Char.isDigit &&
               !isWordOpt (t.get? 5)))
     | _ => false)

def stateZipSearch (s : List Char) : Bool :=
  (List.range (s.length + 1)).any fun i => stateZipAt s i

/-- `\b[A-Z]{1,2}\d{1,2}[A-Z]?\s+\d[A-Z]{2}\b` hitting at `i`
(bounded repetitions as explicit alternatives = regex backtracking). -/
def ukPostalAt (s : List Char) (i : Nat) : Bool :=
  !isWordOpt (prevChar s i) &&
    ([1, 2].any fun a =>
      match expectCount Char.isUpper a (s.drop i) with
      | none => false
      | some t1 =>
        [1, 2].any fun b =>
          match expectCount Char.isDigit b t1 with
          | none => false
          | some t2 =>
            [0, 1].any fun o =>
              match expectCount Char.isUpper o t2 with
              | none => false
              | some t3 =>
                let w := runLen isPySpace t3
                decide (w ≥ 1) &&
                  (match t3.drop w with
                   | d :: u1 :: u2 :: rest =>
                     d.isDigit && u1.isUpper && u2.isUpper &&
                       !isWordOpt rest.head?
                   | _ => false))

def ukPostalSearch (s : List Char) : Bool :=
  (List.range (s.length + 1)).any fun i => ukPostalAt s i

/-- `\b[A-Z]\d[A-Z]\s+\d[A-Z]\d\b` hitting at `i`. -/
def canadaPostalAt (s : List Char) (i : Nat) : Bool :=
  !isWordOpt (prevChar s i) &&
    (match s.drop i with
     | u1 :: d1 :: u2 :: rest =>
       u1.isUpper && d1.isDigit && u2.isUpper &&
         (let w := runLen isPySpace rest
          decide (w ≥ 1) &&
            (match rest.drop w with
             | d2 :: u3 :: d3 :: rest2 =>
               d2.isDigit && u3.isUpper && d3.isDigit && !isWordOpt rest2.head?
             | _ => false))
     | _ => false)

def canadaPostalSearch (s : List Char) : Bool :=
  (List.range (s.length + 1)).any fun i => canadaPostalAt s i

/-- `\b\d{4}\s*[A-Z]{2}\b` hitting at `i`. -/
def nlPostalAt (s : List Char) (i : Nat) : Bool :=
  !isWordOpt (prevChar s i) &&
    (match expectCount Char.isDigit 4 (s.drop i) with
     | none => false
     | some t =>
       match t.drop (runLen isPySpace t) with
       | u1 :: u2 :: rest => u1.isUpper && u2.isUpper && !isWordOpt rest.head?
       | _ => false)

def nlPostalSearch (s : List Char) : Bool :=
  (List.range (s.length + 1)).any fun i => nlPostalAt s i

/-- `\b\d{5}\s+[A-Z][a-z]{2,}\b` hitting at `i` (`[a-z]{2,}` greedy with a
trailing `\b`: any shorter backtrack leaves a lowercase — word — character
next, so the hit condition is "maximal run ≥ 2 and non-word after it"). -/
def europeanPostalAt (s : List Char) (i : Nat) : Bool :=
  !isWordOpt (prevChar s i) &&
    (match expectCount Char.isDigit 5 (s.drop i) with
     | none => false
     | some t =>
       let w := runLen isPySpace t
       decide (w ≥ 1) &&
         (match t.drop w with
          | u :: rest =>
            u.isUpper &&
              (let m := runLen Char.isLower rest
               decide (m ≥ 2) && !isWordOpt (rest.get? m))
          | [] => false))

def europeanPostalSearch (s : List Char) : Bool :=
  (List.range (s.length + 1)).any fun i => europeanPostalAt s i

/-- The `non_english_patterns` word alternations (IGNORECASE). -/
def nonEnglishStreetWords : List (List Char) :=
  ["rue", "via", "straße", "strasse", "avenida", "boulevard",
   "platz", "gatan", "vägen", "corso", "rua", "calle",
   "postbus", "boîte", "casella"].map String.toList

def nonEnglishStreetSearch (s : List Char) : Bool :=
  searchWordsCI nonEnglishStreetWords s

/-- The country/region alternation (IGNORECASE). -/
def countryWords : List (List Char) :=
  ["uk", "united kingdom", "canada", "australia", "germany", "france",
   "italy", "spain", "netherlands", "sweden", "norway", "denmark",
   "finland", "belgium", "austria", "switzerland"].map String.toList

def countrySearch (s : List Char) : Bool := searchWordsCI countryWords s

def usStreetWords : List (List Char) :=
  ["street", "st", "avenue", "ave", "road", "rd", "drive", "dr", "lane",
   "ln", "boulevard", "blvd", "way", "court", "ct", "place",
   "pl"].map String.toList

/-- `\b\d+\s+[A-Za-z\s]+(?:street|st|...)\b` (IGNORECASE) hitting at `i`.
`\d+` must be the maximal digit run (its follower `\s` is disjoint);
`\s+[A-Za-z\s]+` is "one whitespace character, then `j ≥ 1` characters of
`[A-Za-z\s]`" since `\s ⊆ [A-Za-z\s]`; the suffix alternatives all end in
a letter, so their trailing `\b` is "non-word character next". -/
def usStreetAt (s : List Char) (i : Nat) : Bool :=
  !isWordOpt (prevChar s i) &&
    (let t := s.drop i
     let d := runLen Char.isDigit t
     decide (d ≥ 1) &&
       (match t.drop d with
        | c :: rest =>
          isPySpace c &&
            ((List.range (rest.length + 1)).any fun j =>
              decide (j ≥ 1) &&
                (rest.take j).all (fun c2 => c2.isAlpha || isPySpace c2) &&
                usStreetWords.any fun w =>
                  startsWithCI w (rest.drop j) &&
                    !isWordOpt ((rest.drop j).get? w.length))
        | [] => false))

def usStreetSearch (s : List Char) : Bool :=
  (List.range (s.length + 1)).any fun i => usStreetAt s i

/-- `re.search(r"^\d{5}(?:-\d{4})?$", address.strip())`. -/
def zipAloneCheck (s : List Char) : Bool :=
  let t := stripPws s
  (decide (t.length = 5) && t.all Char.isDigit) ||
    (decide (t.length = 10) && (t.take 5).all Char.isDigit &&
      decide (t.get? 5 = some '-') && (t.drop 6).all Char.isDigit)

/-- `SimplifiedControlledDetector._classify_address` (the context argument
is never read by the source). -/
def classifyAddress (address context : List Char) : String × ℚ :=
  if stateZipSearch address = true then ("Controlled", 19/20)
  else if ukPostalSearch address = true then ("NonControlled", 19/20)
  else if canadaPostalSearch address = true then ("NonControlled", 19/20)
  else if nlPostalSearch address = true then ("NonControlled", 9/10)
  else if europeanPostalSearch address = true then ("NonControlled", 17/20)
  else if nonEnglishStreetSearch address = true then ("NonControlled", 4/5)
  else if countrySearch address = true then ("NonControlled", 17/20)
  else if usStreetSearch address = true then ("Controlled", 3/4)
  else if zipAloneCheck address = true then ("Controlled", 9/10)
  else ("Controlled", 1/2)

/-- Suffix test: `re.search(p ++ "$", s, re.IGNORECASE)` for a literal. -/
def endsWithCI (w s : List Char) : Bool :=
  decide (w.length ≤ s.length) && startsWithCI w (s.drop (s.length - w.length))

/-- `\.(?!com|org|net|info|biz)[a-z]{2}$` (IGNORECASE): only the dot in
third-from-last position can complete `[a-z]{2}$`, and there the negative
lookahead always holds since every excluded literal needs at least three
of the two remaining characters; so the test is "ends in a dot followed
by exactly two ASCII letters". -/
def ccTldShape (s : List Char) : Bool :=
  decide (3 ≤ s.length) &&
    (match s.drop (s.length - 3) with
     | d :: a :: b :: [] => decide (d = '.') && a.isAlpha && b.isAlpha
     | _ => false)

def genericTldCheck (s : List Char) : Bool :=
  ([".com", ".org", ".net", ".info", ".biz"].map String.toList).any
    fun w => endsWithCI w s

def govMilEduCheck (s : List Char) : Bool :=
  ([".gov", ".mil", ".edu"].map String.toList).any fun w => endsWithCI w s

def emailIntlContextWords : List (List Char) :=
  ["global", "worldwide", "europe", "asia", "overseas", "uk", "canada",
   "australia"].map String.toList

/-- `SimplifiedControlledDetector._classify_email`. -/
def classifyEmail (email context : List Char) : String × ℚ :=
  if govMilEduCheck email = true then ("Controlled", 19/20)
  else if ccTldShape email = true then ("NonControlled", 9/10)
  else if genericTldCheck email = true then
    if searchWordsCI emailIntlContextWords context then ("NonControlled", 7/10)
    else ("Controlled", 13/20)
  else ("NonControlled", 3/5)

def socialGeoWords : List (List Char) :=
  ["uk", "canada", "australia", "europe", "asia", "global"].map String.toList

/-- `linkedin\.com/in/.+` resp. `facebook\.com/.+` under `re.search`
(IGNORECASE): the literal prefix somewhere, followed by at least one
non-newline character. -/
def platformUrlSearch (lit : List Char) (s : List Char) : Bool :=
  (List.range (s.length + 1)).any fun i =>
    startsWithCI lit (s.drop i) &&
      (match (s.drop i).get? lit.length with
       | some c => decide (c ≠ '\n')
       | none => false)

def inCharRange (lo hi : Nat) (s : List Char) : Bool :=
  s.any fun c => decide (lo ≤ c.toNat) && decide (c.toNat ≤ hi)

/-- `SimplifiedControlledDetector._classify_social_media`. -/
def classifySocial (handle context : List Char) : String × ℚ :=
  if platformUrlSearch "linkedin.com/in/".toList handle then
    if searchWordsCI socialGeoWords context then ("NonControlled", 4/5)
    else ("Controlled", 7/10)
  else if platformUrlSearch "facebook.com/".toList handle then
    if searchWordsCI socialGeoWords context then ("NonControlled", 3/4)
    else ("Controlled", 13/20)
  else if handle.head? = some '@' then
    if searchWordsCI (["global", "worldwide", "europe", "asia",
          "overseas"].map String.toList) context ||
        searchWordsCI (["uk", "canada", "australia", "germany", "france",
          "italy", "spain", "netherlands"].map String.toList) context ||
        inCharRange 0xC0 0x17F context || inCharRange 0x400 0x4FF context ||
        inCharRange 0x4E00 0x9FFF context then
      ("NonControlled", 7/10)
    else ("Controlled", 3/5)
  else ("NonControlled", 1/2)

/-- `SimplifiedControlledDetector.classify_entity`. -/
def classifyEntity (entityType : String) (value context : List Char) :
    String × ℚ :=
  if entityType = "ID" then ("Controlled", 19/20)
  else if entityType = "DRIVER_LICENSE" then ("Controlled", 9/10)
  else if entityType = "EIN" then ("Controlled", 19/20)
  else if entityType = "ZIP" then ("Controlled", 9/10)
  else if entityType = "CREDIT_CARD" then ("NonControlled", 4/5)
  else
    let contextLower := context.map Char.toLower
    if entityType = "PHONE_NUMBER" then classifyPhone value contextLower
    else if entityType = "ADDRESS" then classifyAddress value contextLower
    else if entityType = "EMAIL_ADDRESS" then classifyEmail value contextLower
    else if entityType = "SOCIAL_MEDIA_HANDLE" then classifySocial value contextLower
    else ("NonControlled", 1/2)

/-- C6.  Fixed types: ID, EIN, ZIP and driver's license are always
`Controlled` and credit cards always `NonControlled`, for every value and
context.  Defaults: when none of the classifier's indicator checks fires,
a phone number or address is `Controlled` (confidence 0.5) and an email
whose TLD is recognized by no check is `NonControlled` (0.6). -/
theorem classify_jurisdiction_rules :
    (∀ (v c : List Char),
      (classifyEntity "ID" v c).1 = "Controlled" ∧
      (classifyEntity "EIN" v c).1 = "Controlled" ∧
      (classifyEntity "ZIP" v c).1 = "Controlled" ∧
      (classifyEntity "DRIVER_LICENSE" v c).1 = "Controlled" ∧
      (classifyEntity "CREDIT_CARD" v c).1 = "NonControlled")
    ∧ (∀ (phone ctx : List Char),
        usPhoneFullMatch phone = false → plusIntlMatch phone = false →
        ¬ ((phone.filter Char.isDigit).length = 10 ∧
            (((phone.filter Char.isDigit).head?.map isDigit29).getD false) = true) →
        ¬ ((phone.filter Char.isDigit).length = 11 ∧
            (phone.filter Char.isDigit).head? = some '1') →
        ¬ (phone.filter Char.isDigit).length > 11 →
        ¬ (phone.filter Char.isDigit).length < 10 →
        classifyPhone phone ctx = ("Controlled", 1/2))
    ∧ (∀ (addr ctx : List Char),
        stateZipSearch addr = false → ukPostalSearch addr = false →
        canadaPostalSearch addr = false → nlPostalSearch addr = false →
        europeanPostalSearch addr = false → nonEnglishStreetSearch addr = false →
        countrySearch addr = false → usStreetSearch addr = false →
        zipAloneCheck addr = false →
        classifyAddress addr ctx = ("Controlled", 1/2))
    ∧ (∀ (email ctx : List Char),
        govMilEduCheck email = false → ccTldShape email = false →
        genericTldCheck email = false →
        classifyEmail email ctx = ("NonControlled", 3/5)) := by
  refine ⟨?_, ?_, ?_, ?_⟩
  · intro v c
    refine ⟨?_, ?_, ?_, ?_, ?_⟩ <;> simp [classifyEntity]
  · intro phone ctx h1 h2 h3 h4 h5 h6
    simp only [classifyPhone, h1, h2, h3, h4, h5, h6, if_false]
    simp [h3, h4, h5, h6]
  · intro addr ctx h1 h2 h3 h4 h5 h6 h7 h8 h9
    simp [classifyAddress, h1, h2, h3, h4, h5, h6, h7, h8, h9]
  · intro email ctx h1 h2 h3
    simp [classifyEmail, h1, h2, h3]

/-- Witness for C6 at concrete indicator-free inputs. -/
theorem classify_jurisdiction_rules_witness :
    (classifyEntity "ID" "078051120".toList [] ).1 = "Controlled" ∧
    (classifyEntity "CREDIT_CARD" "4111111111111111".toList []).1 = "NonControlled" ∧
    classifyPhone "0234567890".toList [] = ("Controlled", 1/2) ∧
    classifyAddress "qq".toList [] = ("Controlled", 1/2) ∧
    classifyEmail "bob@site.xyz".toList [] = ("NonControlled", 3/5) := by
  obtain ⟨hfix, hphone, haddr, hemail⟩ := classify_jurisdiction_rules
  refine ⟨(hfix _ _).1, (hfix _ _).2.2.2.2, ?_, ?_, ?_⟩
  · exact hphone _ [] (by decide) (by decide) (by decide) (by decide)
      (by decide) (by decide)
  · exact haddr _ [] (by decide) (by decide) (by decide) (by decide)
      (by decide) (by decide) (by decide) (by decide) (by decide)
  · exact hemail _ [] (by decide) (by decide) (by decide)

end GoldenGate
